import Mathlib

/-!
Shallow embedding of the vant-recorder core (src/Recorder.ts and
src/settings/RecorderSettings.ts): configuration merging and validation,
the current-conditions task configuration, and the start/stop/restart
scheduling state machine with its drift-corrected cycle.

Conventions of the embedding:
* JavaScript objects with optional fields become structures over `Option`.
* `lodash.merge(dst, src)` deep-merges `src` onto `dst` field by field
  (a `src` field that is `undefined` keeps the `dst` value) and MUTATES
  `dst` in place, returning it.  Module-level default objects are therefore
  threaded explicitly: a merge returns both the merged settings and the new
  value of the module-level default object (which is the very same object).
* Timestamps are milliseconds since the epoch (`Nat`), as in
  `Date.prototype.getTime`.  JavaScript numbers used as task intervals are
  modelled as `ℚ` (they are IEEE doubles in the source; every literal the
  claims mention is exactly representable, and `NaN` does not arise on the
  paths modelled here).
* Exceptions become `Except String`; the string is the error message of the
  `InvalidRecorderConfigurationError` thrown by the source.
* The environment-variable overlay (`preferEnvironmentVariables`) reads
  `process.env`, which is outside the program; the paths modelled here are
  the ones with the overlay disabled, which is all the claims exercise.
-/

namespace VantRecorder

/-- `MinimumRecorderSettings` (src/settings/MinimumRecorderSettings.ts):
the caller-supplied overrides; every field is optional (the source is a
union of two record types whose fields are all individually optional on at
least one side; a field the caller omits is `undefined`).  `units` and
`logOptions` carry no branching logic touched by any claim (they are passed
through to the external `vant-environment` package) and are not modelled. -/
structure MinimumRecorderSettings where
  api : Option String := none
  key : Option String := none
  model : Option String := none
  path : Option String := none
  baudRate : Option Nat := none
  preferEnvironmentVariables : Option Bool := none
  rainCollectorSize : Option String := none
deriving DecidableEq, Repr

/-- `RecorderSettings` (src/settings/RecorderSettings.ts): the complete
settings record.  `rainCollectorSize` is the one field that is optional
even in the complete record (`rainCollectorSize?:` in the source). -/
structure RecorderSettings where
  api : String
  key : String
  model : String
  path : String
  baudRate : Nat
  preferEnvironmentVariables : Bool
  rainCollectorSize : Option String
deriving DecidableEq, Repr

/-- `defaultRecorderSettings` (src/settings/RecorderSettings.ts, lines
35-44): api "", key "", path "", model "Pro2", baudRate 19200,
preferEnvironmentVariables false, rainCollectorSize absent. -/
def defaultRecorderSettings : RecorderSettings :=
  { api := ""
    key := ""
    model := "Pro2"
    path := ""
    baudRate := 19200
    preferEnvironmentVariables := false
    rainCollectorSize := none }

/-- `merge(dst, src)` of lodash on the recorder settings: per field, a
`src` value that is present (not `undefined`) wins, otherwise the `dst`
value is kept.  The result is the mutated `dst` object itself. -/
def mergeSettings (dst : RecorderSettings) (src : MinimumRecorderSettings) :
    RecorderSettings :=
  { api := src.api.getD dst.api
    key := src.key.getD dst.key
    model := src.model.getD dst.model
    path := src.path.getD dst.path
    baudRate := src.baudRate.getD dst.baudRate
    preferEnvironmentVariables :=
      src.preferEnvironmentVariables.getD dst.preferEnvironmentVariables
    rainCollectorSize :=
      match src.rainCollectorSize with
      | some v => some v
      | none => dst.rainCollectorSize }

/-- `Recorder.validateSettings` (src/Recorder.ts, lines 226-251): checks
path, rainCollectorSize, api, baudRate, model for JavaScript-falsiness in
that order and throws `InvalidRecorderConfigurationError` with the listed
message at the first falsy field.  Falsy means `""` for the strings,
`undefined` (or the unused `""`) for the optional rain collector size, and
`0` for the numeric baud rate. -/
def validateSettings (s : RecorderSettings) : Except String Unit :=
  if s.path = "" then .error "No serial path specified!"
  else if s.rainCollectorSize.getD "" = "" then
    .error "No rain collector size specified!"
  else if s.api = "" then .error "No api url specified!"
  else if s.baudRate = 0 then .error "No baud rate specified!"
  else if s.model = "" then .error "No weather station model specified!"
  else .ok ()

/-- The handle returned by `Recorder.createDeviceInterface`
(src/Recorder.ts, lines 106-122): a connected `VantPro2Interface` or
`VantVueInterface`; only the connection parameters are observable here. -/
structure DeviceHandle where
  path : String
  model : String
deriving DecidableEq, Repr

/-- `Recorder.createDeviceInterface` (src/Recorder.ts, lines 106-122):
connects to the device at `settings.path` for `settings.model`. -/
def createDeviceInterface (s : RecorderSettings) : DeviceHandle :=
  { path := s.path, model := s.model }

/-- `Recorder.create` (src/Recorder.ts, lines 90-104), with the
environment-variable overlay disabled: merge the overrides onto the
module-level default object (mutating it — the first component of the
result is the new value of `defaultRecorderSettings` after the call, which
is the merged object itself), validate, and only on success connect to the
device.  The second component is the outcome: the thrown
`InvalidRecorderConfigurationError` message, or the connected device. -/
def createModel (defaults : RecorderSettings) (ov : MinimumRecorderSettings) :
    RecorderSettings × Except String DeviceHandle :=
  let s := mergeSettings defaults ov
  match validateSettings s with
  | .error e => (s, .error e)
  | .ok _ => (s, .ok (createDeviceInterface s))

/-- `CurrentConditionsTaskSettings` (src/settings/RecorderSettings.ts,
lines 50-55): the complete task settings. -/
structure CurrentConditionsTaskSettings where
  interval : ℚ
  useEnvironmentVariables : Bool
deriving DecidableEq, Repr

/-- `defaultCurrentConditionsTaskSettings`
(src/settings/RecorderSettings.ts, lines 60-63). -/
def defaultCurrentConditionsTaskSettings : CurrentConditionsTaskSettings :=
  { interval := 1, useEnvironmentVariables := false }

/-- `MinimumCurrentConditionsTaskSettings`
(src/settings/MinimumRecorderSettings.ts): both fields optional. -/
structure MinimumCurrentConditionsTaskSettings where
  interval : Option ℚ := none
  preferEnvironmentVariables : Option Bool := none
deriving DecidableEq, Repr

/-- `merge(defaultCurrentConditionsTaskSettings, settings)` on the task
settings: the caller-supplied `interval` wins when present.  (The
caller-side `preferEnvironmentVariables` key lands beside
`useEnvironmentVariables` on the merged object; it only selects the
environment overlay, which is not modelled, so the merged record keeps the
`useEnvironmentVariables` of `dst`.) -/
def mergeCCTask (dst : CurrentConditionsTaskSettings)
    (src : MinimumCurrentConditionsTaskSettings) :
    CurrentConditionsTaskSettings :=
  { interval := src.interval.getD dst.interval
    useEnvironmentVariables := dst.useEnvironmentVariables }

instance {ε α : Type} [DecidableEq ε] [DecidableEq α] :
    DecidableEq (Except ε α) := fun a b =>
  match a, b with
  | .error e, .error f =>
    if h : e = f then .isTrue (by rw [h])
    else .isFalse (by intro hh; cases hh; exact h rfl)
  | .error _, .ok _ => .isFalse (by intro h; cases h)
  | .ok _, .error _ => .isFalse (by intro h; cases h)
  | .ok x, .ok y =>
    if h : x = y then .isTrue (by rw [h])
    else .isFalse (by intro hh; cases hh; exact h rfl)

/-- Outcome of one `configureCurrentConditionsTask` call: the value of the
recorder's `currentConditionsTaskSettings` field after the call (even when
the call throws), the new value of the module-level
`defaultCurrentConditionsTaskSettings` object (mutated by `merge`), and
the normal or thrown result. -/
structure ConfigureOutcome where
  stored : Option CurrentConditionsTaskSettings
  newDefaults : CurrentConditionsTaskSettings
  result : Except String Unit
deriving DecidableEq, Repr

/-- `Recorder.configureCurrentConditionsTask` (src/Recorder.ts, lines
263-289), with the environment overlay disabled.  Passing `false`
(modelled as `none`) clears the stored task settings and returns with no
validation.  Otherwise the overrides are merged onto the module defaults
and ASSIGNED TO THE FIELD FIRST; only then is the stored interval checked:
`!interval || interval < 1` throws
`InvalidRecorderConfigurationError`.  Over ℚ the falsiness test
`!interval` is `interval = 0`. -/
def configureCurrentConditionsTask (defaults : CurrentConditionsTaskSettings)
    (settings : Option MinimumCurrentConditionsTaskSettings) :
    ConfigureOutcome :=
  match settings with
  | none => { stored := none, newDefaults := defaults, result := .ok () }
  | some s =>
    let merged := mergeCCTask defaults s
    if merged.interval = 0 ∨ merged.interval < 1 then
      { stored := some merged
        newDefaults := merged
        result := .error
          "The current conditions interval has to be greater or equal to 1." }
    else
      { stored := some merged, newDefaults := merged, result := .ok () }

/-- `Recorder.currentConditionsConfigured` (src/Recorder.ts, line 295):
whether the task settings field is defined. -/
def currentConditionsConfigured
    (stored : Option CurrentConditionsTaskSettings) : Bool :=
  stored.isSome

/-- `Recorder.currentConditionsInterval` (src/Recorder.ts, line 301):
`this.currentConditionsTaskSettings?.interval`. -/
def currentConditionsInterval
    (stored : Option CurrentConditionsTaskSettings) : Option ℚ :=
  stored.map (·.interval)

/-!
The scheduling state machine.  `updateCurrentConditions` is an `async`
method: invoking it runs synchronously up to the first `await` (the device
read `this.interface.getRichRealtimeData()`), so an invocation puts one
cycle "in flight"; the rest of the method (delivery dispatch, timeout
computation, `setTimeout`) runs later, when the read resolves.  The state
below records the recorder's mutable fields plus the event-loop facts the
claims are about: which timers armed by the recorder are still pending,
which cycles are in flight, and how many cycles have begun.  Timer ids are
allocated from `nextId`; in-flight cycles reuse the same counter as a
convenient supply of fresh ids.  For the scheduler the configured interval
is the whole-seconds integer the task settings carry after validation
(claims about the schedule presume an integer interval ≥ 1), so
`ccTask : Option Nat` holds it.
-/

/-- The recorder's scheduling state: the `running` flag, the stored task
configuration (`currentConditionsTaskSettings`, reduced to its interval in
whole seconds; `none` when the task is disabled), the
`realtimeRecorderTimeout` field (`storedHandle`, the id of the LAST timer
armed — `clearTimeout` only ever clears this one), the multiset of timers
armed by the recorder and not yet fired or cleared (each with the delay it
was armed with, in ms), the in-flight cycles suspended at the device read,
a fresh-id counter, and a count of cycle beginnings (observable). -/
structure SchedState where
  running : Bool
  ccTask : Option Nat
  storedHandle : Option Nat
  pendingTimers : List (Nat × Int)
  inflight : List Nat
  nextId : Nat
  cyclesStarted : Nat
deriving DecidableEq, Repr

/-- A freshly constructed recorder (constructor, src/Recorder.ts lines
58-62: `running = false`, no timer, no in-flight cycle) whose task
configuration is `task`. -/
def recInit (task : Option Nat) : SchedState :=
  { running := false
    ccTask := task
    storedHandle := none
    pendingTimers := []
    inflight := []
    nextId := 0
    cyclesStarted := 0 }

/-- Invoking `this.updateCurrentConditions()`: the async method starts and
suspends at the device read, adding one in-flight cycle. -/
def beginCycle (st : SchedState) : SchedState :=
  { st with
    inflight := st.inflight ++ [st.nextId]
    nextId := st.nextId + 1
    cyclesStarted := st.cyclesStarted + 1 }

/-- `Recorder.start` (src/Recorder.ts, lines 307-316): no-op when already
running; otherwise set `running` and, if the task is configured, invoke
`updateCurrentConditions()` immediately. -/
def start (st : SchedState) : SchedState :=
  if st.running then st
  else
    let st' := { st with running := true }
    if st.ccTask.isSome then beginCycle st' else st'

/-- `Recorder.stop` (src/Recorder.ts, lines 322-328): no-op when already
stopped; otherwise `clearTimeout(this.realtimeRecorderTimeout)` — which
removes the timer whose id the field holds, if that timer is still
pending, and nothing else — and clear `running`.  The field itself is not
reset, and in-flight cycles are untouched. -/
def stop (st : SchedState) : SchedState :=
  if st.running then
    { st with
      pendingTimers := st.pendingTimers.filter (fun p => some p.1 ≠ st.storedHandle)
      running := false }
  else st

/-- `Recorder.restart` (src/Recorder.ts, lines 333-337): `stop()` then
`start()`, synchronously. -/
def restart (st : SchedState) : SchedState :=
  start (stop st)

/-- The effect of `configureCurrentConditionsTask` on the scheduling
state: the method (src/Recorder.ts, lines 263-289) writes only the
`currentConditionsTaskSettings` field; the running flag, the timer field,
pending timers and in-flight cycles are untouched. -/
def configureTask (st : SchedState) (v : Option Nat) : SchedState :=
  { st with ccTask := v }

/-- `newRecordTime` computation (src/Recorder.ts, lines 381-384):
`new Date(record.time)`, then `setSeconds(record.time.getSeconds() +
interval)` — which advances the time value by `interval` whole seconds,
keeping the millisecond component — then `setMilliseconds(0)` — which
zeroes the millisecond component of the result.  `T` is `record.time` in
ms since the epoch, `I` the interval in seconds. -/
def nextRecordTime (T I : Nat) : Nat :=
  (T + I * 1000) - (T + I * 1000) % 1000

/-- `timeoutTime` (src/Recorder.ts, line 384):
`newRecordTime.getTime() - record.time.getTime()`, in ms. -/
def timeoutTime (T I : Nat) : Int :=
  (nextRecordTime T I : Int) - (T : Int)

/-- The resolution of an in-flight cycle `c`'s device read with a reading
timestamped `T` (ms since epoch): the remainder of
`updateCurrentConditions` (src/Recorder.ts, lines 358-385) runs — the
delivery is dispatched without awaiting, and a single timer is armed via
`setTimeout` for `timeoutTime T I` where `I` is the interval read LIVE
from `this.currentConditionsTaskSettings?.interval` at this moment.  When
the task settings are `undefined` at this point the arithmetic yields
`NaN` and `setTimeout` coerces the delay to 0 (immediate).  The new
timer's id overwrites `realtimeRecorderTimeout`.  Note the source checks
neither `this.running` nor the task configuration here. -/
def cycleComplete (st : SchedState) (c : Nat) (T : Nat) : SchedState :=
  let delay : Int :=
    match st.ccTask with
    | some I => timeoutTime T I
    | none => 0
  { st with
    inflight := st.inflight.erase c
    pendingTimers := st.pendingTimers ++ [(st.nextId, delay)]
    storedHandle := some st.nextId
    nextId := st.nextId + 1 }

/-- The event loop fires pending timer `t`: it is removed from the pending
set and its callback `this.updateCurrentConditions` is invoked, beginning
a new cycle (src/Recorder.ts, line 385). -/
def timerFire (st : SchedState) (t : Nat) : SchedState :=
  beginCycle { st with pendingTimers := st.pendingTimers.filter (fun p => p.1 ≠ t) }

/-!
The read-retry loop (src/Recorder.ts, lines 346-356):

    do { try { record = await getRichRealtimeData() }
         catch { log failure; await sleep(1000) } } while (record == undefined)

The device collaborator's behaviour is an oracle: a list of outcomes, one
per attempt (`none` = the read rejects, `some r` = it resolves with
reading `r`).  The loop consumes the oracle until the first success.
-/

/-- One reading from the device: its timestamp in ms since the epoch (the
claims only observe `record.time`; the measured payload is carried opaque). -/
structure Reading where
  time : Nat
deriving DecidableEq, Repr

/-- Observable events of the retry loop, in order: a read attempt, the
failure log (`log.error` + `log.info("Retrying...")`), the fixed backoff
`sleep(1000)`, and the successful exit. -/
inductive ReadEvent where
  | attempt
  | failLog
  | sleepBackoff (ms : Nat)
  | success
deriving DecidableEq, Repr

/-- The retry loop run against the oracle: returns the ordered event trace
and the reading that exits the loop (`none` when the oracle is exhausted
without a success — the loop is still running; only a successful reading
exits it). -/
def readRetryLoop : List (Option Reading) → List ReadEvent × Option Reading
  | [] => ([], none)
  | none :: rest =>
    let (evs, r) := readRetryLoop rest
    (ReadEvent.attempt :: ReadEvent.failLog :: ReadEvent.sleepBackoff 1000 :: evs, r)
  | some r :: _ => ([ReadEvent.attempt, ReadEvent.success], some r)

/-! Helper lemmas about the state machine. -/

theorem start_running (st : SchedState) : (start st).running = true := by
  unfold start
  split
  · assumption
  · unfold beginCycle; split <;> rfl

theorem stop_not_running (st : SchedState) : (stop st).running = false := by
  unfold stop
  split
  · rfl
  · simp_all

/-! The claims. -/

/-- Claim C1: the claim says that for a recorder in the Running state with
a pending timer or an in-flight sample-and-deliver cycle, after `stop()`
returns no further cycle begins and no timer armed by the recorder fires.
The code violates this in the in-flight case: `updateCurrentConditions`
never consults `this.running`, so a cycle whose device read is in flight
when `stop()` returns still arms a fresh timer when the read resolves, and
that timer fires and begins a further cycle.  This closed run exhibits it:
start a recorder with task interval 1 (one cycle goes in flight), stop it
(running becomes false, no timer is pending), let the in-flight read
resolve at `T = 500` (a timer with delay 500 ms is armed), and let that
timer fire (a further cycle begins: the cycle count rises from 1 to 2). -/
theorem stop_does_not_prevent_inflight_rearm :
    (stop (start (recInit (some 1)))).running = false ∧
    (stop (start (recInit (some 1)))).pendingTimers = [] ∧
    (stop (start (recInit (some 1)))).inflight = [0] ∧
    (stop (start (recInit (some 1)))).cyclesStarted = 1 ∧
    (cycleComplete (stop (start (recInit (some 1)))) 0 500).pendingTimers = [(1, 500)] ∧
    (timerFire (cycleComplete (stop (start (recInit (some 1)))) 0 500) 1).cyclesStarted = 2 := by
  decide

/-- Claim C2: the claim says that in every reachable state at most one
timer armed by the recorder is pending.  The code violates it: with the
first cycle's device read in flight, `stop()` then `start()` begins a
second cycle while the first is still in flight (the first is not
cancelled and does not check `running`); when both reads resolve, each
arms its own timer, so two timers are pending at once while Running.  This
closed run — `start(); stop(); start()`, then both reads resolving at
`T = 500` and `T = 700` — reaches such a state. -/
theorem two_pending_timers_reachable :
    (cycleComplete (cycleComplete (start (stop (start (recInit (some 1))))) 0 500) 1 700).pendingTimers
      = [(2, 500), (3, 300)] ∧
    (cycleComplete (cycleComplete (start (stop (start (recInit (some 1))))) 0 500) 1 700).pendingTimers.length
      = 2 ∧
    (cycleComplete (cycleComplete (start (stop (start (recInit (some 1))))) 0 500) 1 700).running
      = true := by
  decide

/-- Claim C3: for a reading timestamped `T` (ms since epoch) and configured
integer interval `I ≥ 1`, the next fire instant computed by the cycle is
`T` truncated to the whole second plus `I` seconds; the delay passed to
`setTimeout` is `I * 1000 − (T mod 1000)` ms, a function of `T` and `I`
alone; and in any scheduler state whose configured interval is `I`, the
timer armed when a cycle completes with reading time `T` carries exactly
that delay — the state machine carries no wall clock because the source's
computation never consults one, so read duration and dispatch duration
cannot influence the delay. -/
theorem drift_corrected_schedule :
    ∀ T I : Nat, 1 ≤ I →
      nextRecordTime T I = (T - T % 1000) + I * 1000 ∧
      timeoutTime T I = (I : Int) * 1000 - ((T % 1000 : Nat) : Int) ∧
      ∀ (st : SchedState) (c : Nat), st.ccTask = some I →
        (cycleComplete st c T).pendingTimers =
          st.pendingTimers ++ [(st.nextId, timeoutTime T I)] := by
  intro T I _
  refine ⟨?_, ?_, ?_⟩
  · unfold nextRecordTime; omega
  · unfold timeoutTime nextRecordTime; omega
  · intro st c h
    simp [cycleComplete, h]

/-- Witness for C3 at `T = 1234`, `I = 2`: the next instant is
`1000 + 2000 = 3000`, the delay is `2000 - 234 = 1766` ms, and a cycle
completion in a concrete state arms exactly that timer. -/
theorem drift_corrected_schedule_w :
    1 ≤ 2 ∧
    nextRecordTime 1234 2 = (1234 - 1234 % 1000) + 2 * 1000 ∧
    timeoutTime 1234 2 = (2 : Int) * 1000 - ((1234 % 1000 : Nat) : Int) ∧
    (cycleComplete (recInit (some 2)) 0 1234).pendingTimers =
      (recInit (some 2)).pendingTimers ++ [((recInit (some 2)).nextId, timeoutTime 1234 2)] := by
  have h := drift_corrected_schedule 1234 2 (by decide)
  exact ⟨by decide, h.1, h.2.1, h.2.2 (recInit (some 2)) 0 rfl⟩

/-- Claim C4: the claim says every `create`/resolution starts from the same
fixed default configuration, earlier overrides never leaking into later
results.  The code violates it: `lodash.merge(defaultRecorderSettings,
recorderSettings)` mutates the module-level default object in place, so a
first `create` with overrides `A = ⦃path := "COM5"⦄` leaves `"COM5"` in
the defaults, and a later resolution with empty overrides `B` produces a
configuration with `path = "COM5"` instead of the fixed default `""`. -/
theorem defaults_mutation_leak :
    (createModel (createModel defaultRecorderSettings { path := some "COM5" }).1 {}).1.path
      = "COM5" ∧
    (createModel defaultRecorderSettings {}).1.path = "" ∧
    (createModel (createModel defaultRecorderSettings { path := some "COM5" }).1 {}).1
      ≠ (createModel defaultRecorderSettings {}).1 := by
  decide

/-- Claim C5 counterexample: the claim says every non-integer task interval
is rejected with a `ConfigurationError`.  The code only checks
`!interval || interval < 1`, so the non-integer interval `3/2` is accepted:
the configure call returns normally and stores `3/2`. -/
theorem noninteger_interval_accepted :
    (¬ ∃ n : ℤ, ((3 : ℚ) / 2) = (n : ℚ)) ∧
    (configureCurrentConditionsTask defaultCurrentConditionsTaskSettings
      (some { interval := some ((3 : ℚ) / 2) })).result = .ok () ∧
    (configureCurrentConditionsTask defaultCurrentConditionsTaskSettings
      (some { interval := some ((3 : ℚ) / 2) })).stored =
      some { interval := (3 : ℚ) / 2, useEnvironmentVariables := false } := by
  refine ⟨?_, ?_, ?_⟩
  · rintro ⟨n, h⟩
    have h2 : (3 : ℚ) = (n : ℚ) * 2 := by field_simp at h; linarith
    have h3 : (3 : ℤ) = n * 2 := by exact_mod_cast h2
    omega
  · norm_num [configureCurrentConditionsTask, mergeCCTask, defaultCurrentConditionsTaskSettings]
  · norm_num [configureCurrentConditionsTask, mergeCCTask, defaultCurrentConditionsTaskSettings]

/-- Claim C5 as amended: with the environment overlay disabled, a task
interval `< 1` (including the falsy `0`) makes `configureCurrentConditionsTask`
throw `InvalidRecorderConfigurationError`; any interval `≥ 1` — integer or
not, integrality is not checked on this path — is accepted and stored as
given (in particular `1` succeeds with `1` retained); and passing the
disable signal clears the stored task configuration with no validation. -/
theorem interval_validation :
    ∀ q : ℚ,
      (q < 1 →
        (configureCurrentConditionsTask defaultCurrentConditionsTaskSettings
          (some { interval := some q })).result =
          .error "The current conditions interval has to be greater or equal to 1.") ∧
      (1 ≤ q →
        (configureCurrentConditionsTask defaultCurrentConditionsTaskSettings
          (some { interval := some q })).result = .ok () ∧
        (configureCurrentConditionsTask defaultCurrentConditionsTaskSettings
          (some { interval := some q })).stored =
          some { interval := q, useEnvironmentVariables := false }) ∧
      configureCurrentConditionsTask defaultCurrentConditionsTaskSettings none =
        { stored := none
          newDefaults := defaultCurrentConditionsTaskSettings
          result := .ok () } := by
  intro q
  refine ⟨?_, ?_, rfl⟩
  · intro h
    simp [configureCurrentConditionsTask, mergeCCTask, defaultCurrentConditionsTaskSettings, h]
  · intro h
    have h0 : ¬((q : ℚ) = 0 ∨ q < 1) := by
      push_neg
      exact ⟨by intro e; rw [e] at h; norm_num at h, not_lt.mp (by simp [not_lt]; exact h)⟩
    simp [configureCurrentConditionsTask, mergeCCTask, defaultCurrentConditionsTaskSettings, h0]

/-- Witness for the amended C5 at `q = 0` (rejected) and `q = 1` (accepted
with `1` stored). -/
theorem interval_validation_w :
    ((0 : ℚ) < 1 ∧
      (configureCurrentConditionsTask defaultCurrentConditionsTaskSettings
        (some { interval := some (0 : ℚ) })).result =
        .error "The current conditions interval has to be greater or equal to 1.") ∧
    ((1 : ℚ) ≤ 1 ∧
      (configureCurrentConditionsTask defaultCurrentConditionsTaskSettings
        (some { interval := some (1 : ℚ) })).result = .ok () ∧
      (configureCurrentConditionsTask defaultCurrentConditionsTaskSettings
        (some { interval := some (1 : ℚ) })).stored =
        some { interval := 1, useEnvironmentVariables := false }) :=
  ⟨⟨by norm_num, (interval_validation 0).1 (by norm_num)⟩,
   ⟨le_refl 1, (interval_validation 1).2.1 (le_refl 1)⟩⟩

/-- Claim C6: validation checks the merged configuration's fields in the
order path, rain-collector size, endpoint (api), baud rate, model, and
throws `InvalidRecorderConfigurationError` naming the FIRST missing
(falsy) field; a configuration missing `path` fails with
"No serial path specified!", and in `create` this happens before any
device connection is attempted (the outcome is the error, never a
connected device); when all five are present and non-empty, validation
succeeds. -/
theorem validate_first_missing :
    ∀ s : RecorderSettings,
      (s.path = "" → validateSettings s = .error "No serial path specified!") ∧
      (s.path ≠ "" → s.rainCollectorSize.getD "" = "" →
        validateSettings s = .error "No rain collector size specified!") ∧
      (s.path ≠ "" → s.rainCollectorSize.getD "" ≠ "" → s.api = "" →
        validateSettings s = .error "No api url specified!") ∧
      (s.path ≠ "" → s.rainCollectorSize.getD "" ≠ "" → s.api ≠ "" → s.baudRate = 0 →
        validateSettings s = .error "No baud rate specified!") ∧
      (s.path ≠ "" → s.rainCollectorSize.getD "" ≠ "" → s.api ≠ "" → s.baudRate ≠ 0 →
        s.model = "" →
        validateSettings s = .error "No weather station model specified!") ∧
      (s.path ≠ "" → s.rainCollectorSize.getD "" ≠ "" → s.api ≠ "" → s.baudRate ≠ 0 →
        s.model ≠ "" →
        validateSettings s = .ok ()) ∧
      (∀ ov : MinimumRecorderSettings, (mergeSettings s ov).path = "" →
        (createModel s ov).2 = .error "No serial path specified!") := by
  intro s
  refine ⟨?_, ?_, ?_, ?_, ?_, ?_, ?_⟩
  · intro h1; simp [validateSettings, h1]
  · intro h1 h2; simp [validateSettings, h1, h2]
  · intro h1 h2 h3; simp [validateSettings, h1, h2, h3]
  · intro h1 h2 h3 h4; simp [validateSettings, h1, h2, h3, h4]
  · intro h1 h2 h3 h4 h5; simp [validateSettings, h1, h2, h3, h4, h5]
  · intro h1 h2 h3 h4 h5; simp [validateSettings, h1, h2, h3, h4, h5]
  · intro ov h
    simp [createModel, validateSettings, h]

/-- Witness for C6: the fixed defaults have empty `path`, so validation
and `create` with empty overrides fail with "No serial path specified!". -/
theorem validate_first_missing_w :
    defaultRecorderSettings.path = "" ∧
    validateSettings defaultRecorderSettings = .error "No serial path specified!" ∧
    (createModel defaultRecorderSettings {}).2 = .error "No serial path specified!" :=
  ⟨rfl, (validate_first_missing defaultRecorderSettings).1 rfl,
    (validate_first_missing defaultRecorderSettings).2.2.2.2.2.2 {} (by decide)⟩

/-- Claim C7 counterexample: the claim says a mid-run configure call has no
effect on the running schedule's behaviour until a restart.  The code
reads `this.currentConditionsTaskSettings?.interval` live when a cycle
completes, so two runs that differ only in a mid-run
`configureCurrentConditionsTask` call (interval 1 vs re-configured to 5
after `start()`, no restart anywhere) already arm different delays at the
very next cycle completion: 4500 ms versus 500 ms for the same reading
time 500. -/
theorem configure_midrun_changes_next_delay :
    (cycleComplete (configureTask (start (recInit (some 1))) (some 5)) 0 500).pendingTimers
      = [(1, 4500)] ∧
    (cycleComplete (start (recInit (some 1))) 0 500).pendingTimers = [(1, 500)] ∧
    (cycleComplete (configureTask (start (recInit (some 1))) (some 5)) 0 500).pendingTimers
      ≠ (cycleComplete (start (recInit (some 1))) 0 500).pendingTimers := by
  decide

/-- Claim C7 as amended: a mid-run `configureCurrentConditionsTask` call
touches only the stored task settings — the running flag, the pending
timers, the timer handle field, the in-flight cycles and the cycle count
are unchanged, so the already-armed timer is not disturbed — but the task
settings are read live at each cycle completion, so the newly configured
interval takes effect at the very next reschedule, without a restart. -/
theorem configure_midrun_scheduler_effect :
    ∀ (st : SchedState) (v : Option Nat),
      ((configureTask st v).running = st.running ∧
       (configureTask st v).pendingTimers = st.pendingTimers ∧
       (configureTask st v).storedHandle = st.storedHandle ∧
       (configureTask st v).inflight = st.inflight ∧
       (configureTask st v).cyclesStarted = st.cyclesStarted) ∧
      ((configureTask st v).ccTask = v) ∧
      (∀ (c T I : Nat), st.ccTask = some I →
        (cycleComplete st c T).pendingTimers =
          st.pendingTimers ++ [(st.nextId, timeoutTime T I)]) := by
  intro st v
  refine ⟨⟨rfl, rfl, rfl, rfl, rfl⟩, rfl, ?_⟩
  intro c T I h
  simp [cycleComplete, h]

/-- Witness for the amended C7: a concrete mid-run configure call leaves
the pending timers untouched, and a concrete cycle completion uses the
live interval. -/
theorem configure_midrun_scheduler_effect_w :
    (configureTask (start (recInit (some 1))) (some 5)).pendingTimers
      = (start (recInit (some 1))).pendingTimers ∧
    (recInit (some 2)).ccTask = some 2 ∧
    (cycleComplete (recInit (some 2)) 7 1234).pendingTimers =
      (recInit (some 2)).pendingTimers ++ [((recInit (some 2)).nextId, timeoutTime 1234 2)] :=
  ⟨((configure_midrun_scheduler_effect (start (recInit (some 1))) (some 5)).1).2.1,
   rfl,
   (configure_midrun_scheduler_effect (recInit (some 2)) (some 5)).2.2 7 1234 2 rfl⟩

/-- Claim C8: run against an oracle that fails the device read exactly `k`
times and then succeeds with reading `r`, the retry loop produces exactly
the trace of `k` failed attempts — each failure logged and followed by the
fixed 1-second backoff, so each of the `k` retry attempts is preceded by
the backoff — then the successful attempt, exiting with `r`; and against
an oracle of `k` failures with no success, the loop has not exited, for
every `k` (no maximum attempt count; only a successful reading exits). -/
theorem retry_until_success :
    ∀ (k : Nat) (r : Reading),
      readRetryLoop (List.replicate k none ++ [some r]) =
        ((List.replicate k
            [ReadEvent.attempt, ReadEvent.failLog, ReadEvent.sleepBackoff 1000]).flatten
          ++ [ReadEvent.attempt, ReadEvent.success], some r) ∧
      readRetryLoop (List.replicate k none) =
        ((List.replicate k
            [ReadEvent.attempt, ReadEvent.failLog, ReadEvent.sleepBackoff 1000]).flatten,
          none) := by
  intro k r
  induction k with
  | zero => constructor <;> simp [readRetryLoop]
  | succ n ih =>
    constructor
    · simp [List.replicate_succ, readRetryLoop, ih.1]
    · simp [List.replicate_succ, readRetryLoop, ih.2]

/-- Claim C9: `start()` and `stop()` are idempotent — on every scheduler
state, calling `start` twice yields exactly the state of calling it once,
and likewise for `stop` (the second call hits the `running` guard and
changes nothing). -/
theorem start_stop_idempotent :
    ∀ st : SchedState, start (start st) = start st ∧ stop (stop st) = stop st := by
  intro st
  constructor
  · by_cases h : st.running
    · simp [start, h]
    · by_cases h2 : st.ccTask.isSome
      · simp [start, beginCycle, h, h2]
      · simp [start, h, h2]
  · by_cases h : st.running
    · simp [stop, h]
    · simp [stop, h]

/-- Claim C10: `configureCurrentConditionsTask` assigns the merged settings
to the recorder's field before validating, so when it throws for an
invalid interval `q < 1` the field is left holding the invalid settings:
afterwards `currentConditionsConfigured()` is true and
`currentConditionsInterval()` returns the invalid `q`. -/
theorem configure_stores_before_validation :
    ∀ q : ℚ, q < 1 →
      (configureCurrentConditionsTask defaultCurrentConditionsTaskSettings
        (some { interval := some q })).result =
        .error "The current conditions interval has to be greater or equal to 1." ∧
      currentConditionsConfigured
        (configureCurrentConditionsTask defaultCurrentConditionsTaskSettings
          (some { interval := some q })).stored = true ∧
      currentConditionsInterval
        (configureCurrentConditionsTask defaultCurrentConditionsTaskSettings
          (some { interval := some q })).stored = some q := by
  intro q h
  simp [configureCurrentConditionsTask, mergeCCTask, defaultCurrentConditionsTaskSettings, h,
    currentConditionsConfigured, currentConditionsInterval]

/-- Witness for C10 at the invalid interval `0`: the call throws, yet the
task reads as configured with interval `0`. -/
theorem configure_stores_before_validation_w :
    (0 : ℚ) < 1 ∧
    ((configureCurrentConditionsTask defaultCurrentConditionsTaskSettings
        (some { interval := some (0 : ℚ) })).result =
      .error "The current conditions interval has to be greater or equal to 1." ∧
     currentConditionsConfigured
        (configureCurrentConditionsTask defaultCurrentConditionsTaskSettings
          (some { interval := some (0 : ℚ) })).stored = true ∧
     currentConditionsInterval
        (configureCurrentConditionsTask defaultCurrentConditionsTaskSettings
          (some { interval := some (0 : ℚ) })).stored = some 0) :=
  ⟨by norm_num, configure_stores_before_validation 0 (by norm_num)⟩

end VantRecorder
